import Mathlib

/-!
Verification development for the `check-tls-cert` Sensu plugin
(`cmd/check-tls-cert/main.go`).  The program validates its command-line
configuration (`checkArgs`) and then dials a TLS endpoint, reads the peer's
leaf certificate and classifies time-to-expiry (`executeCheck`).

Shallow embedding conventions:
* Go `time.Time` values and `time.Duration` values are `Int` nanoseconds,
  matching Go's internal representation; `AddDate(0,0,n)` is adding
  `n * 24h` of nanoseconds and `Time.After` is strict `>`.
* The external go-playground validator (`validate.Var(_, "fqdn")`) and the
  external CA-bundle loader (`corev2.LoadCACerts`) are oracles passed as
  function arguments; a concrete model of the validator's `fqdn` rule is
  also provided for claims that need its behaviour on a concrete string.
* The TLS dial is an oracle returning either a transport error string or
  the peer certificate chain of the established connection.
* The shared mutable global `tlsConfig` is threaded explicitly as state.
-/

/-- Parsed CA certificate pool, as returned by `corev2.LoadCACerts`.
Only its identity matters to the program, so it is a wrapped token. -/
structure CertPool where
  id : Nat
deriving DecidableEq, Repr

/-- The plugin `Config` struct of `main.go` (command-line configuration). -/
structure Config where
  host : String
  trustedCAFile : String
  insecureSkipVerify : Bool
  port : Int
  timeout : Int
  warning : Int
  critical : Int
deriving DecidableEq, Repr

/-- The fields of Go's `tls.Config` that the program reads or writes.
`rootCAs = none` is the zero value `nil`, meaning the platform default
trust store is used. -/
structure TLSConfig where
  rootCAs : Option CertPool
  insecureSkipVerify : Bool
deriving DecidableEq, Repr

/-- The zero value of the process-wide `var tlsConfig tls.Config`:
`RootCAs = nil` (platform default) and `InsecureSkipVerify = false`. -/
def initialTLSConfig : TLSConfig := { rootCAs := none, insecureSkipVerify := false }

/-- `sensu.CheckStateOK`. -/
def checkStateOK : Nat := 0

/-- `sensu.CheckStateWarning`. -/
def checkStateWarning : Nat := 1

/-- `sensu.CheckStateCritical`. -/
def checkStateCritical : Nat := 2

/-- Default value of the `hostname` option in the `options` list. -/
def defaultHostname : String := "http://localhost:80/"

/-- `checkArgs(event)`: validates the plugin configuration, threading the
global `tlsConfig` state.  Returns the `(int, error)` pair of Go (status,
optional error message) together with the new `tlsConfig` state.
`fqdnValid` is the external validator's `fqdn` rule and `loadCACerts` the
external `corev2.LoadCACerts` (returning `none` on load error). -/
def checkArgs (fqdnValid : String → Bool) (loadCACerts : String → Option CertPool)
    (plugin : Config) (tlsConfig : TLSConfig) :
    (Nat × Option String) × TLSConfig :=
  if plugin.host.length = 0 then
    ((checkStateWarning, some "--hostname is required"), tlsConfig)
  else if fqdnValid plugin.host = false then
    ((checkStateWarning, some "hostname is not a valid FQDN"), tlsConfig)
  else if plugin.critical ≤ 0 then
    ((checkStateWarning, some "--critical is required"), tlsConfig)
  else if plugin.warning ≤ 0 then
    ((checkStateWarning, some "--warning is required"), tlsConfig)
  else if plugin.warning ≤ plugin.critical then
    ((checkStateWarning, some "warning cannot be lower than Critical value"), tlsConfig)
  else if plugin.trustedCAFile.length > 0 then
    match loadCACerts plugin.trustedCAFile with
    | none => ((checkStateWarning, some "error loading specified CA file"), tlsConfig)
    | some caCertPool =>
        ((checkStateOK, none),
          { tlsConfig with
              rootCAs := some caCertPool
              insecureSkipVerify := plugin.insecureSkipVerify })
  else
    ((checkStateOK, none), { tlsConfig with insecureSkipVerify := plugin.insecureSkipVerify })

/-- Nanoseconds per hour (`time.Hour`). -/
def nsPerHour : Int := 3600 * 1000000000

/-- Nanoseconds per day. -/
def nsPerDay : Int := 24 * nsPerHour

/-- `t.AddDate(0, 0, n)`: add `n` days to a time value. -/
def addDays (t : Int) (n : Int) : Int := t + n * nsPerDay

/-- `a.After(b)` on Go times: strictly later. -/
def timeAfter (a b : Int) : Bool := b < a

/-- The peer certificate fields the program reads: `NotAfter` (expiry). -/
structure Cert where
  notAfter : Int
deriving DecidableEq, Repr

/-- `int64(cert.NotAfter.Sub(timeNow).Hours())`: the remaining lifetime in
whole hours, with truncation toward zero (Go float-to-int conversion). -/
def expiresInHoursOf (timeNow notAfter : Int) : Int :=
  Int.tdiv (notAfter - timeNow) nsPerHour

/-- `int(expiresInHours / 24)`: Go `int64` division truncates toward zero. -/
def expiresInDaysOf (timeNow notAfter : Int) : Int :=
  Int.tdiv (expiresInHoursOf timeNow notAfter) 24

/-- ASCII letter test, the `[a-zA-Z]` class of the validator's regex. -/
def isAsciiAlpha (c : Char) : Bool :=
  (('a' ≤ c) && (c ≤ 'z')) || (('A' ≤ c) && (c ≤ 'Z'))

/-- ASCII digit test, the `[0-9]` class of the validator's regex. -/
def isAsciiDigit (c : Char) : Bool := ('0' ≤ c) && (c ≤ '9')

/-- The `[a-zA-Z0-9-]` character class of the validator's regex. -/
def isLabelChar (c : Char) : Bool := isAsciiAlpha c || isAsciiDigit c || c == '-'

/-- Split a character list into dot-separated labels. -/
def splitLabels : List Char → List Char → List (List Char)
  | [], acc => [acc.reverse]
  | c :: rest, acc =>
    if c = '.' then acc.reverse :: splitLabels rest []
    else splitLabels rest (c :: acc)

/-- A non-final DNS label per the validator's regex:
`[a-zA-Z0-9][a-zA-Z0-9-]{0,62}`. -/
def labelOK : List Char → Bool
  | [] => false
  | c :: rest => (isAsciiAlpha c || isAsciiDigit c) && rest.length ≤ 62 && rest.all isLabelChar

/-- The final DNS label per the validator's regex, which must start with a
letter: `[a-zA-Z][a-zA-Z0-9-]{0,62}`. -/
def lastLabelOK : List Char → Bool
  | [] => false
  | c :: rest => isAsciiAlpha c && rest.length ≤ 62 && rest.all isLabelChar

/-- Model of the external go-playground validator v10 rule `fqdn` invoked by
`validate.Var(plugin.Host, "fqdn")`: the string is non-empty and matches
the RFC 1123 FQDN pattern — after removing at most one trailing dot, it is
two or more dot-separated labels, each a non-empty run of at most 63
characters from `[a-zA-Z0-9-]` starting with an alphanumeric character,
the last label starting with a letter. -/
def goValidatorFQDN (s : String) : Bool :=
  let cs := s.toList
  if cs.isEmpty then false
  else
    let body := if cs.getLast? = some '.' then cs.dropLast else cs
    match (splitLabels body []).reverse with
    | [] => false
    | last :: earlierRev =>
        earlierRev.length ≥ 1 && lastLabelOK last && earlierRev.all labelOK

/-- The `hostname:port` string `executeCheck` dials. -/
def dialAddr (plugin : Config) : String :=
  plugin.host ++ ":" ++ toString plugin.port

/-- Outcome of `executeCheck`: a `(status, error)` return together with the
text written to standard output, or a runtime panic (the unchecked
`PeerCertificates[0]` index on an empty chain). -/
inductive ExecResult where
  | ret (status : Nat) (err : Option String) (printed : String)
  | panicked
deriving DecidableEq, Repr

/-- Status of an `ExecResult`, `none` when the program panicked. -/
def ExecResult.statusOf : ExecResult → Option Nat
  | .ret s _ _ => some s
  | .panicked => none

/-- `executeCheck(event)`: dial `host:port` with the current `tlsConfig`,
read the first peer certificate and classify expiry.  `dial` models
`tls.Dial`: it receives the address and TLS configuration and returns the
peer certificate chain on success, or the transport error text. -/
def executeCheck (dial : String → TLSConfig → Except String (List Cert))
    (timeNow : Int) (plugin : Config) (tlsConfig : TLSConfig) : ExecResult :=
  match dial (dialAddr plugin) tlsConfig with
  | .error e => .ret checkStateCritical (some e) ""
  | .ok peerCertificates =>
    match peerCertificates with
    | [] => .panicked
    | cert :: _ =>
      let expiresInDays := expiresInDaysOf timeNow cert.notAfter
      if timeAfter (addDays timeNow plugin.critical) cert.notAfter then
        .ret checkStateCritical none
          ("critical: cert expires in " ++ toString expiresInDays ++ " days")
      else if timeAfter (addDays timeNow plugin.warning) cert.notAfter then
        .ret checkStateWarning none
          ("warning: cert expires in " ++ toString expiresInDays ++ " days")
      else
        .ret checkStateOK none
          ("certificate for " ++ plugin.host ++ ":" ++ toString plugin.port ++
            " expires in " ++ toString expiresInDays ++ " days\n")

/-- One full invocation as driven by the plugin SDK: `checkArgs` runs
first; on a validation error its status and message are reported and
`executeCheck` never runs; otherwise `executeCheck` runs with the
`tlsConfig` state left by `checkArgs`. -/
inductive RunResult where
  | validationFailure (status : Nat) (msg : String)
  | execution (r : ExecResult)
deriving DecidableEq, Repr

/-- The composition of validation and execution, threading `tlsConfig`. -/
def runCheck (fqdnValid : String → Bool) (loadCACerts : String → Option CertPool)
    (dial : String → TLSConfig → Except String (List Cert))
    (timeNow : Int) (plugin : Config) (tls0 : TLSConfig) : RunResult :=
  match checkArgs fqdnValid loadCACerts plugin tls0 with
  | ((st, some msg), _) => .validationFailure st msg
  | ((_, none), tls1) => .execution (executeCheck dial timeNow plugin tls1)

/-! ## Helper lemmas -/

/-- Adding strictly more days to the same instant gives a strictly later
instant. -/
theorem addDays_strictMono (t : Int) {a b : Int} (h : a < b) : addDays t a < addDays t b := by
  unfold addDays
  have hD : (0:Int) < nsPerDay := by unfold nsPerDay nsPerHour; norm_num
  exact add_lt_add_left (mul_lt_mul_of_pos_right h hD) t

/-- A string has length zero exactly when it is the empty string
(mirrors Go's `len(s) == 0` idiom against `s == ""`). -/
theorem string_length_eq_zero_iff (s : String) : s.length = 0 ↔ s = "" := by
  cases s with
  | mk data =>
    simp only [String.length]
    constructor
    · intro h
      simp only [List.length_eq_zero] at h
      rw [h]
    · intro h
      have h2 := congrArg String.data h
      simp at h2
      simp [h2]

/-- Concrete configuration with warning=30 and critical=7, used for
concrete instances of the claims. -/
def samplePlugin : Config :=
  { host := "example.com", trustedCAFile := "", insecureSkipVerify := false,
    port := 443, timeout := 0, warning := 30, critical := 7 }

/-! ## Claims -/

/-- C1 counterexample: with warning=30, critical=7 and a certificate whose
`notAfter` is exactly `now + criticalDays` days, the claimed CRITICAL
trigger `now + criticalDays days >= notAfter` holds, yet
`executeCheck` returns WARNING, not CRITICAL: the code compares with the
strict `Time.After`, so the `>=` boundary case falls through to the
warning branch. -/
theorem c1_counterexample :
    addDays 0 samplePlugin.critical ≥ (addDays 0 7 : Int) ∧
    checkStateWarning ≠ checkStateCritical ∧
    executeCheck (fun _ _ => Except.ok [⟨addDays 0 7⟩]) 0 samplePlugin initialTLSConfig
      = .ret checkStateWarning none "warning: cert expires in 7 days" := by decide

/-- C1 (amended): for every successful handshake yielding a leaf
certificate and valid thresholds warningDays > criticalDays, executeCheck
classifies with the critical bound evaluated first and strict
comparisons: CRITICAL exactly when `now + criticalDays days > notAfter`,
WARNING exactly when `now + criticalDays days <= notAfter <
now + warningDays days`, and OK exactly when
`now + warningDays days <= notAfter`; in particular, with warning=30 and
critical=7, a certificate with `notAfter = now + 3 days` yields
CRITICAL. -/
theorem c1_classification_strict
    (dial : String → TLSConfig → Except String (List Cert))
    (timeNow : Int) (plugin : Config) (cert : Cert) (rest : List Cert) (tls : TLSConfig)
    (hd : dial (dialAddr plugin) tls = Except.ok (cert :: rest))
    (hwc : plugin.critical < plugin.warning) :
    ((executeCheck dial timeNow plugin tls).statusOf = some checkStateCritical ↔
      cert.notAfter < addDays timeNow plugin.critical) ∧
    ((executeCheck dial timeNow plugin tls).statusOf = some checkStateWarning ↔
      (addDays timeNow plugin.critical ≤ cert.notAfter ∧
        cert.notAfter < addDays timeNow plugin.warning)) ∧
    ((executeCheck dial timeNow plugin tls).statusOf = some checkStateOK ↔
      addDays timeNow plugin.warning ≤ cert.notAfter) := by
  have hcw := addDays_strictMono timeNow hwc
  unfold executeCheck
  rw [hd]
  simp only [timeAfter]
  by_cases h1 : cert.notAfter < addDays timeNow plugin.critical
  · simp [h1, ExecResult.statusOf, checkStateOK, checkStateWarning, checkStateCritical]
    omega
  · by_cases h2 : cert.notAfter < addDays timeNow plugin.warning
    · simp [h1, h2, ExecResult.statusOf, checkStateOK, checkStateWarning, checkStateCritical]
      omega
    · simp [h1, h2, ExecResult.statusOf, checkStateOK, checkStateWarning, checkStateCritical]
      omega

/-- C1 witness: with warning=30, critical=7 and `notAfter = now + 3 days`,
the result is CRITICAL. -/
theorem c1_witness :
    (executeCheck (fun _ _ => Except.ok [⟨addDays 0 3⟩]) 0 samplePlugin
      initialTLSConfig).statusOf = some checkStateCritical :=
  ((c1_classification_strict _ 0 samplePlugin ⟨addDays 0 3⟩ [] initialTLSConfig rfl
    (by decide)).1).mpr (by decide)

/-- C7: with valid thresholds (warningDays > criticalDays), whenever the
critical condition of the code holds, the warning condition also holds,
and the result is CRITICAL, never WARNING: the critical bound is checked
first. -/
theorem c7_critical_precedence
    (dial : String → TLSConfig → Except String (List Cert))
    (timeNow : Int) (plugin : Config) (cert : Cert) (rest : List Cert) (tls : TLSConfig)
    (hd : dial (dialAddr plugin) tls = Except.ok (cert :: rest))
    (hwc : plugin.critical < plugin.warning)
    (hcrit : timeAfter (addDays timeNow plugin.critical) cert.notAfter = true) :
    timeAfter (addDays timeNow plugin.warning) cert.notAfter = true ∧
    (executeCheck dial timeNow plugin tls).statusOf = some checkStateCritical ∧
    (executeCheck dial timeNow plugin tls).statusOf ≠ some checkStateWarning := by
  have hcw := addDays_strictMono timeNow hwc
  simp only [timeAfter, decide_eq_true_eq] at hcrit ⊢
  refine ⟨by omega, ?_, ?_⟩ <;>
  · unfold executeCheck
    rw [hd]
    simp [timeAfter, hcrit, ExecResult.statusOf, checkStateWarning, checkStateCritical]

/-- C7 witness at warning=30, critical=7, `notAfter = now + 3 days`. -/
theorem c7_witness :
    timeAfter (addDays 0 samplePlugin.warning) (addDays 0 3) = true ∧
    (executeCheck (fun _ _ => Except.ok [⟨addDays 0 3⟩]) 0 samplePlugin
      initialTLSConfig).statusOf = some checkStateCritical ∧
    (executeCheck (fun _ _ => Except.ok [⟨addDays 0 3⟩]) 0 samplePlugin
      initialTLSConfig).statusOf ≠ some checkStateWarning :=
  c7_critical_precedence _ 0 samplePlugin ⟨addDays 0 3⟩ [] initialTLSConfig rfl
    (by decide) (by decide)

/-- C9: `executeCheck` indexes `PeerCertificates[0]` without a length
check; after a successful dial it panics exactly when the presented chain
is empty, so under the precondition that a completed handshake presents
at least one peer certificate the out-of-bounds access is unreachable. -/
theorem c9_panic_iff_empty_chain
    (dial : String → TLSConfig → Except String (List Cert))
    (timeNow : Int) (plugin : Config) (certs : List Cert) (tls : TLSConfig)
    (hd : dial (dialAddr plugin) tls = Except.ok certs) :
    (executeCheck dial timeNow plugin tls = .panicked ↔ certs = []) := by
  unfold executeCheck
  rw [hd]
  cases certs with
  | nil => simp
  | cons cert rest =>
    simp only [List.cons_ne_nil, iff_false]
    split_ifs <;> simp

/-- C9 witness: a successful dial presenting an empty chain panics. -/
theorem c9_witness :
    executeCheck (fun _ _ => Except.ok ([] : List Cert)) 0 samplePlugin initialTLSConfig
      = .panicked :=
  (c9_panic_iff_empty_chain _ 0 samplePlugin [] initialTLSConfig rfl).mpr rfl

/-- C5 counterexample: for an already-expired certificate (reachable, e.g.
with verification skipped) at 30 hours past expiry, the code reports
`-1` days (truncation toward zero) while `floor(-30 / 24) = -2`, so the
reported days-remaining is not `floor(hoursRemaining / 24)` in general. -/
theorem c5_counterexample :
    expiresInHoursOf 0 ((-30) * nsPerHour) = -30 ∧
    Int.fdiv (-30) 24 = -2 ∧
    expiresInDaysOf 0 ((-30) * nsPerHour) = -1 ∧
    expiresInDaysOf 0 ((-30) * nsPerHour)
      ≠ Int.fdiv (expiresInHoursOf 0 ((-30) * nsPerHour)) 24 ∧
    executeCheck (fun _ _ => Except.ok [⟨(-30) * nsPerHour⟩]) 0 samplePlugin initialTLSConfig
      = .ret checkStateCritical none "critical: cert expires in -1 days" := by decide

/-- C5 (amended): the reported days-remaining is `hoursRemaining / 24`
with integer truncation toward zero, where `hoursRemaining = notAfter -
now` in whole hours truncated toward zero; for a certificate that has not
yet expired (`now <= notAfter`) this coincides with
`floor(hoursRemaining / 24)`, and a certificate expiring in 47 hours
reports 1 day remaining, not 2. -/
theorem c5_days_truncation
    (timeNow notAfter : Int) (h : timeNow ≤ notAfter) :
    expiresInDaysOf timeNow notAfter
      = Int.fdiv (expiresInHoursOf timeNow notAfter) 24 := by
  have hhours : 0 ≤ expiresInHoursOf timeNow notAfter := by
    unfold expiresInHoursOf
    apply Int.tdiv_nonneg (by omega)
    unfold nsPerHour
    norm_num
  unfold expiresInDaysOf
  exact (Int.fdiv_eq_tdiv hhours (by norm_num)).symm

/-- C5 witness: a certificate expiring in 47 hours reports 1 day. -/
theorem c5_witness :
    (0 : Int) ≤ 47 * nsPerHour ∧
    expiresInDaysOf 0 (47 * nsPerHour) = 1 :=
  ⟨by decide, (c5_days_truncation 0 (47 * nsPerHour) (by decide)).trans (by decide)⟩

/-- C3: with a valid non-empty FQDN hostname, validation fails with the
missing-critical error when `criticalDays <= 0`, otherwise with the
missing-warning error when `warningDays <= 0`, and otherwise with the
inverted-thresholds error exactly when `warningDays <= criticalDays`,
including the equal case and regardless of magnitude. -/
theorem c3_threshold_checks
    (fqdnValid : String → Bool) (loadCACerts : String → Option CertPool)
    (plugin : Config) (tls : TLSConfig)
    (hh : plugin.host ≠ "") (hf : fqdnValid plugin.host = true) :
    (plugin.critical ≤ 0 →
      checkArgs fqdnValid loadCACerts plugin tls
        = ((checkStateWarning, some "--critical is required"), tls)) ∧
    (0 < plugin.critical → plugin.warning ≤ 0 →
      checkArgs fqdnValid loadCACerts plugin tls
        = ((checkStateWarning, some "--warning is required"), tls)) ∧
    (0 < plugin.critical → 0 < plugin.warning →
      ((checkArgs fqdnValid loadCACerts plugin tls).1.2
          = some "warning cannot be lower than Critical value"
        ↔ plugin.warning ≤ plugin.critical)) := by
  have hlen : ¬ plugin.host.length = 0 := by
    simp [string_length_eq_zero_iff]
    exact hh
  have hf2 : ¬ (fqdnValid plugin.host = false) := by simp [hf]
  unfold checkArgs
  refine ⟨?_, ?_, ?_⟩
  · intro hc
    simp [hlen, hf2, hc]
  · intro hc hw
    have hc2 : ¬ plugin.critical ≤ 0 := by omega
    simp [hlen, hf2, hc2, hw]
  · intro hc hw
    have hc2 : ¬ plugin.critical ≤ 0 := by omega
    have hw2 : ¬ plugin.warning ≤ 0 := by omega
    by_cases hwc : plugin.warning ≤ plugin.critical
    · simp [hlen, hf2, hc2, hw2, hwc]
    · simp [hwc, hlen, hf2, hc2, hw2]
      split_ifs with hfile
      · cases hca : loadCACerts plugin.trustedCAFile <;> simp [hca]
      · simp

/-- Configuration with equal thresholds warning=7, critical=7. -/
def invertedPlugin : Config :=
  { samplePlugin with warning := 7, critical := 7 }

/-- C3 witness: warning=7, critical=7 fails with the inverted-thresholds
message. -/
theorem c3_witness :
    (checkArgs (fun _ => true) (fun _ => none) invertedPlugin initialTLSConfig).1.2
      = some "warning cannot be lower than Critical value" :=
  ((c3_threshold_checks (fun _ => true) (fun _ => none) invertedPlugin initialTLSConfig
    (by decide) rfl).2.2 (by decide) (by decide)).mpr (by decide)

/-- The validation checks of `checkArgs` in source order, paired with
their failure messages: hostname emptiness, hostname FQDN syntax,
critical threshold, warning threshold, threshold ordering, CA file. -/
def validationChecks (fqdnValid : String → Bool) (loadCACerts : String → Option CertPool)
    (plugin : Config) : List (Bool × String) :=
  [ (decide (plugin.host.length = 0), "--hostname is required"),
    (decide (fqdnValid plugin.host = false), "hostname is not a valid FQDN"),
    (decide (plugin.critical ≤ 0), "--critical is required"),
    (decide (plugin.warning ≤ 0), "--warning is required"),
    (decide (plugin.warning ≤ plugin.critical), "warning cannot be lower than Critical value"),
    (decide (plugin.trustedCAFile.length > 0 ∧ loadCACerts plugin.trustedCAFile = none),
      "error loading specified CA file") ]

/-- The message of the earliest failing check, if any. -/
def firstFailure (fqdnValid : String → Bool) (loadCACerts : String → Option CertPool)
    (plugin : Config) : Option String :=
  ((validationChecks fqdnValid loadCACerts plugin).find? (fun c => c.1)).map (fun c => c.2)

/-- C4: validation runs its checks in a fixed order and short-circuits on
the first failure: the reported error is the message of the earliest
failing check, the status is WARNING exactly when some check fails, and
once an earlier check fails the later oracles (CA loader; and FQDN
validator when the hostname is empty) are never consulted, so the result
does not depend on them. -/
theorem c4_first_failure_wins
    (fqdnValid : String → Bool) (loadCACerts : String → Option CertPool)
    (plugin : Config) (tls : TLSConfig) :
    ((checkArgs fqdnValid loadCACerts plugin tls).1.2
      = firstFailure fqdnValid loadCACerts plugin) ∧
    ((checkArgs fqdnValid loadCACerts plugin tls).1.1
      = if (firstFailure fqdnValid loadCACerts plugin).isSome
        then checkStateWarning else checkStateOK) ∧
    ((plugin.host.length = 0 ∨ fqdnValid plugin.host = false ∨ plugin.critical ≤ 0 ∨
        plugin.warning ≤ 0 ∨ plugin.warning ≤ plugin.critical) →
      ∀ load1 load2 : String → Option CertPool,
        checkArgs fqdnValid load1 plugin tls = checkArgs fqdnValid load2 plugin tls) ∧
    (plugin.host.length = 0 →
      ∀ (f1 f2 : String → Bool) (load1 load2 : String → Option CertPool),
        checkArgs f1 load1 plugin tls = checkArgs f2 load2 plugin tls) := by
  refine ⟨?_, ?_, ?_, ?_⟩
  · unfold checkArgs firstFailure validationChecks
    split_ifs <;> try (cases hca : loadCACerts plugin.trustedCAFile)
    all_goals simp_all
  · unfold checkArgs firstFailure validationChecks
    split_ifs <;> try (cases hca : loadCACerts plugin.trustedCAFile)
    all_goals simp_all
  · intro hearly load1 load2
    unfold checkArgs
    split_ifs
    all_goals simp_all
  · intro hempty f1 f2 load1 load2
    unfold checkArgs
    split_ifs
    all_goals simp_all

/-- Configuration with several simultaneous defects: empty hostname,
inverted thresholds and a CA file that fails to load. -/
def badPlugin : Config :=
  { host := "", trustedCAFile := "x", insecureSkipVerify := false,
    port := 443, timeout := 0, warning := 3, critical := 7 }

/-- C4 witness: on a configuration with several defects the reported
error is the earliest one, and neither the CA loader nor the FQDN
validator affects the result. -/
theorem c4_witness :
    (checkArgs (fun _ => true) (fun _ => none) badPlugin initialTLSConfig).1.2
      = firstFailure (fun _ => true) (fun _ => none) badPlugin ∧
    checkArgs (fun _ => true) (fun _ => some ⟨5⟩) badPlugin initialTLSConfig
      = checkArgs (fun _ => true) (fun _ => none) badPlugin initialTLSConfig ∧
    checkArgs (fun _ => false) (fun _ => some ⟨5⟩) badPlugin initialTLSConfig
      = checkArgs (fun _ => true) (fun _ => none) badPlugin initialTLSConfig :=
  ⟨(c4_first_failure_wins (fun _ => true) (fun _ => none) badPlugin initialTLSConfig).1,
   (c4_first_failure_wins (fun _ => true) (fun _ => none) badPlugin initialTLSConfig).2.2.1
     (Or.inl (by decide)) (fun _ => some ⟨5⟩) (fun _ => none),
   (c4_first_failure_wins (fun _ => false) (fun _ => none) badPlugin initialTLSConfig).2.2.2
     (by decide) (fun _ => false) (fun _ => true) (fun _ => some ⟨5⟩) (fun _ => none)⟩

/-- C6: every validation failure is reported at WARNING severity with the
specific validation reason as the message, and when validation fails the
run never reaches `executeCheck` (the dial oracle is never invoked, so
no network activity occurs); every dial failure in `executeCheck` is
reported at CRITICAL severity with exactly the underlying transport error
text as the message, in particular a non-empty message whenever the
transport error text is non-empty; every failure path returns a status
and message. -/
theorem c6_error_families
    (fqdnValid : String → Bool) (loadCACerts : String → Option CertPool)
    (plugin : Config) (tls : TLSConfig) :
    (∀ st msg tls1, checkArgs fqdnValid loadCACerts plugin tls = ((st, some msg), tls1) →
      st = checkStateWarning ∧
      msg ∈ ["--hostname is required", "hostname is not a valid FQDN",
        "--critical is required", "--warning is required",
        "warning cannot be lower than Critical value", "error loading specified CA file"]) ∧
    (∀ (dial : String → TLSConfig → Except String (List Cert)) (timeNow : Int) st msg tls1,
      checkArgs fqdnValid loadCACerts plugin tls = ((st, some msg), tls1) →
      runCheck fqdnValid loadCACerts dial timeNow plugin tls = .validationFailure st msg) ∧
    (∀ (dial : String → TLSConfig → Except String (List Cert)) (timeNow : Int) (e : String),
      dial (dialAddr plugin) tls = Except.error e →
      executeCheck dial timeNow plugin tls = .ret checkStateCritical (some e) "" ∧
      (e ≠ "" →
        executeCheck dial timeNow plugin tls ≠ .ret checkStateCritical (some "") "")) := by
  refine ⟨?_, ?_, ?_⟩
  · intro st msg tls1 h
    unfold checkArgs at h
    repeat' split at h
    all_goals simp_all
  · intro dial timeNow st msg tls1 h
    unfold runCheck
    rw [h]
  · intro dial timeNow e hd
    have he : executeCheck dial timeNow plugin tls = .ret checkStateCritical (some e) "" := by
      unfold executeCheck
      rw [hd]
    refine ⟨he, fun hne hcontra => ?_⟩
    rw [he] at hcontra
    simp_all

/-- C6 witness: an empty hostname is reported at WARNING with the
required-hostname message, and a refused connection is reported at
CRITICAL with the transport error text. -/
theorem c6_witness :
    (checkStateWarning = checkStateWarning ∧
      "--hostname is required" ∈ ["--hostname is required", "hostname is not a valid FQDN",
        "--critical is required", "--warning is required",
        "warning cannot be lower than Critical value", "error loading specified CA file"]) ∧
    executeCheck (fun _ _ => Except.error "dial tcp: connection refused") 0 samplePlugin
      initialTLSConfig = .ret checkStateCritical (some "dial tcp: connection refused") "" :=
  ⟨(c6_error_families (fun _ => true) (fun _ => none) badPlugin initialTLSConfig).1
      checkStateWarning "--hostname is required" initialTLSConfig (by decide),
   ((c6_error_families (fun _ => true) (fun _ => none) samplePlugin initialTLSConfig).2.2
      (fun _ _ => Except.error "dial tcp: connection refused") 0
      "dial tcp: connection refused" rfl).1⟩

/-- C10: on every error return of `checkArgs` the threaded `tlsConfig`
state is exactly the state at entry; the root-certificate set changes
only when the CA bundle loaded successfully (and then to that bundle, on
a success return), and the `insecureSkipVerify` flag changes only on a
success return. -/
theorem c10_no_update_on_error
    (fqdnValid : String → Bool) (loadCACerts : String → Option CertPool)
    (plugin : Config) (tls : TLSConfig) :
    (∀ st msg tls1, checkArgs fqdnValid loadCACerts plugin tls = ((st, some msg), tls1) →
      tls1 = tls) ∧
    (∀ res tls1, checkArgs fqdnValid loadCACerts plugin tls = (res, tls1) →
      tls1.rootCAs ≠ tls.rootCAs →
      res.2 = none ∧ ∃ pool, loadCACerts plugin.trustedCAFile = some pool ∧
        tls1.rootCAs = some pool) ∧
    (∀ res tls1, checkArgs fqdnValid loadCACerts plugin tls = (res, tls1) →
      tls1.insecureSkipVerify ≠ tls.insecureSkipVerify → res.2 = none) := by
  refine ⟨?_, ?_, ?_⟩
  · intro st msg tls1 h
    unfold checkArgs at h
    repeat' split at h
    all_goals simp_all
  · intro res tls1 h hne
    unfold checkArgs at h
    repeat' split at h
    all_goals try simp_all
    all_goals
      rcases h with ⟨h1, h2⟩
      subst h1
      subst h2
      simp_all
  · intro res tls1 h hne
    unfold checkArgs at h
    repeat' split at h
    all_goals try simp_all
    all_goals
      rcases h with ⟨h1, h2⟩
      subst h1
      subst h2
      simp_all

/-- C10 witness: a failing validation leaves the entry state untouched. -/
theorem c10_witness :
    checkArgs (fun _ => true) (fun _ => none) badPlugin initialTLSConfig
      = ((checkStateWarning, some "--hostname is required"), initialTLSConfig) ∧
    initialTLSConfig = initialTLSConfig :=
  ⟨by decide,
   (c10_no_update_on_error (fun _ => true) (fun _ => none) badPlugin initialTLSConfig).1
     checkStateWarning "--hostname is required" initialTLSConfig (by decide)⟩

/-- C2: for every configuration that passes validation starting from the
initial (zero-value) TLS configuration, the TLS configuration handed to
`executeCheck` is the one derived by validation: its root set is the
bundle loaded from `trustedCAFile` when that file was given, `none`
(platform default) when not, and its `insecureSkipVerify` flag equals the
configuration's value; moreover the dial inside the run consults exactly
that derived configuration at the dialed address, so two dial functions
that agree there give identical run results — no default/empty policy is
used in place of the derived one. -/
theorem c2_derived_policy_used
    (fqdnValid : String → Bool) (loadCACerts : String → Option CertPool)
    (plugin : Config) (st : Nat) (tls1 : TLSConfig)
    (h : checkArgs fqdnValid loadCACerts plugin initialTLSConfig = ((st, none), tls1)) :
    (plugin.trustedCAFile ≠ "" →
      ∃ pool, loadCACerts plugin.trustedCAFile = some pool ∧ tls1.rootCAs = some pool) ∧
    (plugin.trustedCAFile = "" → tls1.rootCAs = none) ∧
    tls1.insecureSkipVerify = plugin.insecureSkipVerify ∧
    (∀ (dial dial2 : String → TLSConfig → Except String (List Cert)) (timeNow : Int),
      dial (dialAddr plugin) tls1 = dial2 (dialAddr plugin) tls1 →
      runCheck fqdnValid loadCACerts dial timeNow plugin initialTLSConfig
        = runCheck fqdnValid loadCACerts dial2 timeNow plugin initialTLSConfig) := by
  have hrun : ∀ (dial : String → TLSConfig → Except String (List Cert)) (timeNow : Int),
      runCheck fqdnValid loadCACerts dial timeNow plugin initialTLSConfig
        = .execution (executeCheck dial timeNow plugin tls1) := by
    intro dial timeNow
    unfold runCheck
    rw [h]
  have hmain : ((plugin.trustedCAFile ≠ "" →
      ∃ pool, loadCACerts plugin.trustedCAFile = some pool ∧ tls1.rootCAs = some pool) ∧
      (plugin.trustedCAFile = "" → tls1.rootCAs = none) ∧
      tls1.insecureSkipVerify = plugin.insecureSkipVerify) := by
    unfold checkArgs at h
    repeat' split at h
    all_goals try simp_all
    · rcases h with ⟨-, h2⟩
      subst h2
      exact ⟨fun _ => rfl,
        fun hfe => absurd ((string_length_eq_zero_iff _).mpr hfe) (by omega), rfl⟩
    · rcases h with ⟨-, h2⟩
      subst h2
      exact ⟨fun hfe => absurd ((string_length_eq_zero_iff _).mp (by omega)) hfe,
        fun _ => rfl, rfl⟩
  refine ⟨hmain.1, hmain.2.1, hmain.2.2, ?_⟩
  intro dial dial2 timeNow hag
  rw [hrun, hrun]
  unfold executeCheck
  rw [hag]

/-- Valid configuration with a trusted CA file and verification skipping
enabled. -/
def caPlugin : Config :=
  { host := "example.com", trustedCAFile := "ca.pem", insecureSkipVerify := true,
    port := 443, timeout := 0, warning := 30, critical := 7 }

/-- C2 witness: with a CA file that loads to a concrete pool, the derived
configuration holds exactly that pool and copies `insecureSkipVerify`. -/
theorem c2_witness :
    (∃ pool, (fun _ : String => some (⟨1⟩ : CertPool)) caPlugin.trustedCAFile = some pool ∧
      (TLSConfig.mk (some ⟨1⟩) true).rootCAs = some pool) ∧
    (TLSConfig.mk (some ⟨1⟩) true).insecureSkipVerify = caPlugin.insecureSkipVerify :=
  let r := c2_derived_policy_used (fun _ => true) (fun _ => some ⟨1⟩) caPlugin
    checkStateOK ⟨some ⟨1⟩, true⟩ (by decide)
  ⟨r.1 (by decide), r.2.2.1⟩

/-- C8: the hostname option's default value `"http://localhost:80/"` is a
non-empty string that the FQDN rule rejects, so an invocation that keeps
the default fails validation with the FQDN-syntax error, and the
empty-hostname error is produced only when the hostname is the empty
string. -/
theorem c8_default_hostname_invalid
    (loadCACerts : String → Option CertPool) (plugin : Config) (tls : TLSConfig) :
    defaultHostname ≠ "" ∧
    goValidatorFQDN defaultHostname = false ∧
    (plugin.host = defaultHostname →
      checkArgs goValidatorFQDN loadCACerts plugin tls
        = ((checkStateWarning, some "hostname is not a valid FQDN"), tls)) ∧
    (∀ (fqdnValid : String → Bool) (load2 : String → Option CertPool) (tls2 : TLSConfig),
      (checkArgs fqdnValid load2 plugin tls2).1.2 = some "--hostname is required" →
      plugin.host = "") := by
  refine ⟨by decide, by decide, ?_, ?_⟩
  · intro h
    unfold checkArgs
    rw [h]
    rw [if_neg (by decide), if_pos (by decide)]
  · intro fqdnValid load2 tls2 h
    unfold checkArgs at h
    repeat' split at h
    all_goals first
      | (exact (string_length_eq_zero_iff _).mp (by assumption))
      | simp_all

/-- C8 witness: a configuration keeping the default hostname fails with
the FQDN-syntax message. -/
theorem c8_witness :
    checkArgs goValidatorFQDN (fun _ => none)
      { samplePlugin with host := defaultHostname } initialTLSConfig
      = ((checkStateWarning, some "hostname is not a valid FQDN"), initialTLSConfig) :=
  (c8_default_hostname_invalid (fun _ => none)
    { samplePlugin with host := defaultHostname } initialTLSConfig).2.2.1 rfl
